import Mathlib

/-!
Verification of the hotel reservation core (`src/functional/hotel.py` and its
`Concepts_Builtin` / `Concepts_JsonFile` variants).

Dates are ISO `YYYY-MM-DD` strings; Python compares them with the
lexicographic order on strings, which we mirror with the order on the
underlying character lists of `String`.  Rooms, reservations and customers
are dictionaries carried in tuples; we model them as structures carried in
lists.  Money and rates are modelled over `ℚ` (bills) and `ℤ` (whole-dollar
revenue sums); room prices are integers, as produced by the program's
`validate_positive_integer` input path.
-/

namespace Hotel

/-- Lexicographic comparison of two strings, as Python's `<` on `str`
compares code points left to right.  Stated on the underlying character
lists, which is definitionally the order on `String`. -/
def strLt (a b : String) : Bool := decide (a.data < b.data)

/-- A room record, `{"roomNumber": ..., "roomType": ..., "price": ..., "available": ...}`. -/
structure Room where
  roomNumber : Int
  roomType : String
  price : Int
  available : Bool
deriving DecidableEq, Repr

/-- A reservation record,
`{"customerName": ..., "roomNumber": ..., "dates": (start, end)}`. -/
structure Reservation where
  customerName : String
  roomNumber : Int
  dates : String × String
deriving DecidableEq, Repr

/-- `update_room_availability(rooms, room_number, availability)` from
`src/functional/hotel.py`: recursively rebuild the room tuple, replacing the
`available` field of every room whose number matches. -/
def update_room_availability : List Room → Int → Bool → List Room
  | [], _, _ => []
  | room :: rest, room_number, availability =>
    if room.roomNumber = room_number then
      { room with available := availability } :: update_room_availability rest room_number availability
    else
      room :: update_room_availability rest room_number availability

/-- `check_room_status(rooms, room_number)`: recursively find the first room
with the given number, `None` when there is none. -/
def check_room_status : List Room → Int → Option Room
  | [], _ => none
  | room :: rest, room_number =>
    if room.roomNumber = room_number then some room
    else check_room_status rest room_number

/-- `release_room(rooms, room_number)`: make the room available again. -/
def release_room (rooms : List Room) (room_number : Int) : List Room :=
  update_room_availability rooms room_number true

/-- `check_if_room_exists(rooms, room_number)`. -/
def check_if_room_exists : List Room → Int → Bool
  | [], _ => false
  | room :: rest, room_number =>
    if room.roomNumber = room_number then true
    else check_if_room_exists rest room_number

/-- The inner recursive `check_reservations` of
`is_room_available_for_period`: `True` when no reservation in the list has a
date range overlapping `(start_date, end_date)`.  Mirrors the Python test
`if not (end_date < res_start or start_date > res_end): return False`.
Note that the source compares only dates and never the reservation's
`roomNumber`. -/
def check_reservations (start_date end_date : String) : List Reservation → Bool
  | [] => true
  | reservation :: rest =>
    if !(strLt end_date reservation.dates.1 || strLt reservation.dates.2 start_date) then
      false
    else
      check_reservations start_date end_date rest

/-- `is_room_available_for_period(rooms, room_number, start_date, end_date,
reservations)`: `False` when the room does not exist, otherwise scan the
reservations for a date overlap. -/
def is_room_available_for_period (rooms : List Room) (room_number : Int)
    (start_date end_date : String) (reservations : List Reservation) : Bool :=
  match check_room_status rooms room_number with
  | some _ => check_reservations start_date end_date reservations
  | none => false

/-- `add_reservation(reservations, rooms, reservation)` from
`src/functional/hotel.py`: `None` when the room does not exist or
`is_room_available_for_period` is false; otherwise the new pair of the
reservations with the reservation appended and the rooms with the room's
`available` flag set to `False`. -/
def add_reservation (reservations : List Reservation) (rooms : List Room)
    (reservation : Reservation) : Option (List Reservation × List Room) :=
  match check_room_status rooms reservation.roomNumber with
  | some _ =>
    if !(is_room_available_for_period rooms reservation.roomNumber
          reservation.dates.1 reservation.dates.2 reservations) then
      none
    else
      some (reservations ++ [reservation],
        update_room_availability rooms reservation.roomNumber false)
  | none => none

/-- `filter_reservations_by_period(reservations, start_date, end_date)`:
keep the reservations whose dates satisfy
`not (res_end < start_date or res_start > end_date)`. -/
def filter_reservations_by_period : List Reservation → String → String → List Reservation
  | [], _, _ => []
  | reservation :: rest, start_date, end_date =>
    if !(strLt reservation.dates.2 start_date || strLt end_date reservation.dates.1) then
      reservation :: filter_reservations_by_period rest start_date end_date
    else
      filter_reservations_by_period rest start_date end_date

/-- `generate_bill(reservations, rooms, room_number, days,
additional_services, tax_rate, discount)` from `src/functional/hotel.py`:
walk the reservations; at the first one for `room_number` whose room is in
the catalog, return `total_cost + total_cost * tax_rate - total_cost *
discount` with `total_cost = price * days + additional_services`. -/
def generate_bill : List Reservation → List Room → Int → ℚ → ℚ → ℚ → ℚ → Option ℚ
  | [], _, _, _, _, _, _ => none
  | reservation :: rest, rooms, room_number, days, additional_services, tax_rate, discount =>
    if reservation.roomNumber = room_number then
      match check_room_status rooms room_number with
      | some room =>
        some (((room.price : ℚ) * days + additional_services)
          + ((room.price : ℚ) * days + additional_services) * tax_rate
          - ((room.price : ℚ) * days + additional_services) * discount)
      | none =>
        generate_bill rest rooms room_number days additional_services tax_rate discount
    else
      generate_bill rest rooms room_number days additional_services tax_rate discount

/-- One decimal digit of an ASCII numeral, as `strptime` consumes digits. -/
def digit? (c : Char) : Option Nat :=
  if 48 ≤ c.toNat ∧ c.toNat ≤ 57 then some (c.toNat - 48) else none

/-- Accumulate a run of decimal digits into a number. -/
def parse_nat_digits : List Char → Nat → Option Nat
  | [], acc => some acc
  | c :: rest, acc =>
    match digit? c with
    | some d => parse_nat_digits rest (acc * 10 + d)
    | none => none

/-- A nonempty all-digit field of a date string. -/
def parse_nat_field (cs : List Char) : Option Nat :=
  if cs.isEmpty then none else parse_nat_digits cs 0

/-- Split a character list at every dash, for the `%Y-%m-%d` format. -/
def split_on_dash : List Char → List (List Char)
  | [] => [[]]
  | c :: rest =>
    if c = '-' then [] :: split_on_dash rest
    else
      match split_on_dash rest with
      | [] => [[c]]
      | part :: parts => (c :: part) :: parts

/-- Gregorian leap-year rule, as `datetime` uses. -/
def is_leap_year (y : Nat) : Bool :=
  (y % 4 == 0 && y % 100 != 0) || y % 400 == 0

/-- Length of month `m` (1-12) of year `y` in the proleptic Gregorian
calendar of `datetime`. -/
def days_in_month (y m : Nat) : Nat :=
  if m = 2 then (if is_leap_year y then 29 else 28)
  else if m = 4 ∨ m = 6 ∨ m = 9 ∨ m = 11 then 30
  else 31

/-- Days in the months of year `y` strictly before month `m`. -/
def days_before_month (y m : Nat) : Nat :=
  (List.range (m - 1)).foldl (fun acc i => acc + days_in_month y (i + 1)) 0

/-- Days in the years strictly before year `y` (proleptic Gregorian,
year 1 onward), matching `datetime.date.toordinal`. -/
def days_before_year (y : Nat) : Nat :=
  365 * (y - 1) + (y - 1) / 4 + (y - 1) / 400 - (y - 1) / 100

/-- The ordinal of a calendar day, so that differences of ordinals are the
`timedelta.days` of `datetime` subtraction. -/
def date_ordinal (y m d : Nat) : Nat :=
  days_before_year y + days_before_month y m + d

/-- `datetime.strptime(s, "%Y-%m-%d").toordinal()` on a date string: split
at the dashes, read the three numeric fields, check the month and day
ranges, and convert to a day ordinal; `none` mirrors the exception raised
on a malformed date. -/
def date_to_ordinal? (s : String) : Option Nat :=
  match split_on_dash s.data with
  | [ys, ms, ds] =>
    match parse_nat_field ys, parse_nat_field ms, parse_nat_field ds with
    | some y, some m, some d =>
      if 1 ≤ m ∧ m ≤ 12 ∧ 1 ≤ d ∧ d ≤ days_in_month y m then
        some (date_ordinal y m d)
      else none
    | _, _, _ => none
  | _ => none

/-- The loop body of `generate_revenue_report`: fold over the reservations,
adding `price * ((end - start).days + 1)` for every reservation that
overlaps the period and whose room is in the catalog; `none` mirrors the
`strptime` exception on an unparseable stored date. -/
def revenue_loop (rooms : List Room) (start_date end_date : String) :
    List Reservation → Int → Option Int
  | [], revenue => some revenue
  | reservation :: rest, revenue =>
    if !(strLt reservation.dates.2 start_date || strLt end_date reservation.dates.1) then
      match check_room_status rooms reservation.roomNumber with
      | some room =>
        match date_to_ordinal? reservation.dates.2, date_to_ordinal? reservation.dates.1 with
        | some oe, some os =>
          revenue_loop rooms start_date end_date rest
            (revenue + room.price * ((oe : Int) - (os : Int) + 1))
        | _, _ => none
      | none => revenue_loop rooms start_date end_date rest revenue
    else
      revenue_loop rooms start_date end_date rest revenue

/-- `generate_revenue_report(rooms, reservations, start_date, end_date)`
from `src/functional/hotel.py`, starting the fold at `revenue = 0`. -/
def generate_revenue_report (rooms : List Room) (reservations : List Reservation)
    (start_date end_date : String) : Option Int :=
  revenue_loop rooms start_date end_date reservations 0

/-- The section 4.1 overlap contract, stated from the spec: two ranges
overlap unless the first ends before the second starts or starts after the
second ends (dates compared lexicographically). -/
def overlaps (a b : String × String) : Bool :=
  !(strLt a.2 b.1 || strLt b.2 a.1)

/-- Rate of the catalog room with the given number, `0` when absent; used
only to state the revenue sum of section 4.5. -/
def room_rate (rooms : List Room) (room_number : Int) : Int :=
  match check_room_status rooms room_number with
  | some room => room.price
  | none => 0

/-- `nightsStayed` of section 4.5: day difference of the reservation's
range, inclusive of both endpoints. -/
def nights_stayed (r : Reservation) : Int :=
  ((date_to_ordinal? r.dates.2).getD 0 : Int) - ((date_to_ordinal? r.dates.1).getD 0 : Int) + 1

/-- The section 4.5 `revenueForPeriod` sum, stated from the spec: over the
reservations overlapping the period whose room is in the catalog, sum
`rate * nightsStayed`. -/
def revenue_spec (rooms : List Room) (reservations : List Reservation)
    (start_date end_date : String) : Int :=
  ((reservations.filter (fun r =>
      overlaps r.dates (start_date, end_date) &&
      (check_room_status rooms r.roomNumber).isSome)).map
    (fun r => room_rate rooms r.roomNumber * nights_stayed r)).sum

/-- Two room records that agree except possibly on the `available` flag. -/
def same_except_available (a b : Room) : Prop :=
  a.roomNumber = b.roomNumber ∧ a.roomType = b.roomType ∧ a.price = b.price

end Hotel

namespace Hotel.Concepts_Builtin

/-- `calculate_bill(room_price, days, additional_services, tax_rate,
discount)` from `src/functional/Concepts_Builtin/hotel.py`: here the
discount is subtracted as an absolute amount. -/
def calculate_bill (room_price : Int) (days additional_services tax_rate discount : ℚ) : ℚ :=
  ((room_price : ℚ) * days + additional_services)
    + ((room_price : ℚ) * days + additional_services) * tax_rate - discount

/-- `add_reservation(reservations, rooms, reservation)` from
`src/functional/Concepts_Builtin/hotel.py`: succeed exactly when the room is
found and its `available` flag is set; dates and existing reservations are
never examined.  Its `check_room_status` and `update_room_availability` are
textually the ones of `src/functional/hotel.py`. -/
def add_reservation (reservations : List Reservation) (rooms : List Room)
    (reservation : Reservation) : Option (List Reservation × List Room) :=
  match check_room_status rooms reservation.roomNumber with
  | some room =>
    if room.available then
      some (reservations ++ [reservation],
        update_room_availability rooms reservation.roomNumber false)
    else none
  | none => none

end Hotel.Concepts_Builtin

namespace Hotel.Concepts_JsonFile

/-- `add_reservation` from
`src/functional/Concepts_JsonFile/Concepts_JsonFile/hotel.py`, textually
identical to the `Concepts_Builtin` one. -/
def add_reservation (reservations : List Reservation) (rooms : List Room)
    (reservation : Reservation) : Option (List Reservation × List Room) :=
  match check_room_status rooms reservation.roomNumber with
  | some room =>
    if room.available then
      some (reservations ++ [reservation],
        update_room_availability rooms reservation.roomNumber false)
    else none
  | none => none

end Hotel.Concepts_JsonFile

namespace Hotel

theorem strLt_iff (a b : String) : strLt a b = true ↔ a < b := by
  simp [strLt]

theorem strLt_eq_false_iff (a b : String) : strLt a b = false ↔ ¬ a < b := by
  rw [← strLt_iff]
  simp

theorem overlaps_eq_true_iff (a b : String × String) :
    overlaps a b = true ↔ ¬ (a.2 < b.1 ∨ b.2 < a.1) := by
  rw [not_or]
  cases h1 : strLt a.2 b.1 <;> cases h2 : strLt b.2 a.1 <;>
    simp_all [overlaps, strLt_iff, strLt_eq_false_iff]

theorem overlaps_comm (a b : String × String) : overlaps a b = overlaps b a := by
  simp [overlaps, Bool.or_comm]

theorem check_reservations_eq_true_iff (s e : String) (l : List Reservation) :
    check_reservations s e l = true ↔ ∀ r ∈ l, overlaps (s, e) r.dates = false := by
  induction l with
  | nil => simp [check_reservations]
  | cons r rest ih =>
    have hc : (!(strLt e r.dates.1 || strLt r.dates.2 s)) = overlaps (s, e) r.dates := rfl
    rw [check_reservations, hc]
    cases h : overlaps (s, e) r.dates <;> simp [h, ih]

theorem check_reservations_append (s e : String) (l1 l2 : List Reservation) :
    check_reservations s e (l1 ++ l2) =
      (check_reservations s e l1 && check_reservations s e l2) := by
  induction l1 with
  | nil => simp [check_reservations]
  | cons r rest ih =>
    have hc : (!(strLt e r.dates.1 || strLt r.dates.2 s)) = overlaps (s, e) r.dates := rfl
    rw [List.cons_append, check_reservations, check_reservations, hc, ih]
    cases overlaps (s, e) r.dates <;> simp

theorem check_reservations_singleton (s e : String) (r : Reservation) :
    check_reservations s e [r] = !(overlaps (s, e) r.dates) := by
  have hc : (!(strLt e r.dates.1 || strLt r.dates.2 s)) = overlaps (s, e) r.dates := rfl
  rw [check_reservations, hc]
  cases overlaps (s, e) r.dates <;> simp [check_reservations]

theorem update_room_availability_eq_map (rooms : List Room) (n : Int) (b : Bool) :
    update_room_availability rooms n b =
      rooms.map (fun room =>
        if room.roomNumber = n then { room with available := b } else room) := by
  induction rooms with
  | nil => rfl
  | cons room rest ih =>
    by_cases h : room.roomNumber = n <;> simp [update_room_availability, h, ih]

theorem check_room_status_update (rooms : List Room) (n : Int) (b : Bool) :
    check_room_status (update_room_availability rooms n b) n =
      (check_room_status rooms n).map (fun room => { room with available := b }) := by
  induction rooms with
  | nil => rfl
  | cons room rest ih =>
    by_cases h : room.roomNumber = n <;>
      simp [update_room_availability, check_room_status, h, ih]

theorem add_reservation_eq (resvs : List Reservation) (rooms : List Room) (r : Reservation) :
    add_reservation resvs rooms r =
      if is_room_available_for_period rooms r.roomNumber r.dates.1 r.dates.2 resvs then
        some (resvs ++ [r], update_room_availability rooms r.roomNumber false)
      else none := by
  cases h : check_room_status rooms r.roomNumber with
  | none => simp [add_reservation, is_room_available_for_period, h]
  | some room =>
    rw [add_reservation, h]
    simp only [is_room_available_for_period, h]
    cases check_reservations r.dates.1 r.dates.2 resvs <;> simp

end Hotel

namespace Hotel

theorem revenue_loop_eq (rooms : List Room) (s e : String) :
    ∀ (l : List Reservation) (acc : Int),
      (∀ r ∈ l, (date_to_ordinal? r.dates.1).isSome ∧ (date_to_ordinal? r.dates.2).isSome) →
      revenue_loop rooms s e l acc = some (acc + revenue_spec rooms l s e) := by
  intro l
  induction l with
  | nil => intro acc _; simp [revenue_loop, revenue_spec]
  | cons r rest ih =>
    intro acc h
    obtain ⟨h1, h2⟩ := h r (List.mem_cons_self r rest)
    obtain ⟨os, hos⟩ := Option.isSome_iff_exists.mp h1
    obtain ⟨oe, hoe⟩ := Option.isSome_iff_exists.mp h2
    have hrest : ∀ x ∈ rest,
        (date_to_ordinal? x.dates.1).isSome ∧ (date_to_ordinal? x.dates.2).isSome :=
      fun x hx => h x (List.mem_cons_of_mem r hx)
    have hc : (!(strLt r.dates.2 s || strLt e r.dates.1)) = overlaps r.dates (s, e) := rfl
    rw [revenue_loop, hc]
    cases hov : overlaps r.dates (s, e) with
    | false => simp [revenue_spec, List.filter_cons, hov, ih _ hrest]
    | true =>
      cases hst : check_room_status rooms r.roomNumber with
      | none => simp [revenue_spec, List.filter_cons, hov, hst, ih _ hrest]
      | some room =>
        rw [if_pos rfl]
        simp only [hoe, hos]
        rw [ih _ hrest]
        simp only [revenue_spec, List.filter_cons, hov, hst, Option.isSome_some,
          Bool.and_self, if_pos, List.map_cons, List.sum_cons, room_rate,
          nights_stayed, hos, hoe, Option.getD_some, Option.some.injEq]
        ring

theorem generate_bill_spec (rooms : List Room) (n : Int)
    (days additional_services tax_rate discount : ℚ) :
    ∀ reservations : List Reservation,
      ((∀ room, check_room_status rooms n = some room →
        (∃ r ∈ reservations, r.roomNumber = n) →
        generate_bill reservations rooms n days additional_services tax_rate discount =
          some (((room.price : ℚ) * days + additional_services) * (1 + tax_rate)
            - ((room.price : ℚ) * days + additional_services) * discount)) ∧
      ((∀ r ∈ reservations, ¬ r.roomNumber = n) →
        generate_bill reservations rooms n days additional_services tax_rate discount = none)) := by
  intro l
  induction l with
  | nil => simp [generate_bill]
  | cons r rest ih =>
    constructor
    · intro room hroom hex
      by_cases h : r.roomNumber = n
      · rw [generate_bill, if_pos h, hroom, Option.some.injEq]
        ring
      · obtain ⟨r', hr'mem, hr'num⟩ := hex
        rw [generate_bill, if_neg h]
        apply ih.1 room hroom
        rcases List.mem_cons.mp hr'mem with heq | hmem
        · exact absurd (heq ▸ hr'num) h
        · exact ⟨r', hmem, hr'num⟩
    · intro hall
      rw [generate_bill, if_neg (hall r (List.mem_cons_self r rest))]
      exact ih.2 fun x hx => hall x (List.mem_cons_of_mem r hx)

theorem check_room_status_congr {rooms1 rooms2 : List Room}
    (h : List.Forall₂ same_except_available rooms1 rooms2) (n : Int) :
    (check_room_status rooms1 n).isSome = (check_room_status rooms2 n).isSome := by
  induction h with
  | nil => rfl
  | @cons a b l1 l2 hab htail ih =>
    obtain ⟨hn, _, _⟩ := hab
    by_cases hh : a.roomNumber = n
    · rw [check_room_status, check_room_status, if_pos hh, if_pos (hn ▸ hh)]
      rfl
    · rw [check_room_status, check_room_status, if_neg hh, if_neg (hn ▸ hh)]
      exact ih

end Hotel

namespace Hotel

/-- Claim C1 — evaluation at a failing input for the spec's availability
contract: room 1 exists and no reservation with `roomNumber = 1` overlaps
the queried period (the sole reservation is for room 2), yet
`is_room_available_for_period` returns `False`, because the source's inner
`check_reservations` scan never compares the reservation's `roomNumber`
with the queried room. -/
theorem claim_C1_code_at_failing_input :
    is_room_available_for_period [⟨1, "single", 100, true⟩] 1 "2024-01-01" "2024-01-03"
      [⟨"Bob", 2, ("2024-01-02", "2024-01-04")⟩] = false ∧
    check_if_room_exists [⟨1, "single", 100, true⟩] 1 = true ∧
    (∀ r ∈ [(⟨"Bob", 2, ("2024-01-02", "2024-01-04")⟩ : Reservation)], ¬ r.roomNumber = 1) := by
  decide

/-- Claim C2: `add_reservation` refuses (returns `None`, no new state) when
the room does not exist; refuses when `is_room_available_for_period` is
false for the room and range; and otherwise returns the state with the
reservation appended and exactly the matching room's `available` flag set
to `False`, every other room and every other field unchanged. -/
theorem claim_C2 (reservations : List Reservation) (rooms : List Room) (r : Reservation) :
    (check_room_status rooms r.roomNumber = none →
      add_reservation reservations rooms r = none) ∧
    ((check_room_status rooms r.roomNumber).isSome = true →
      is_room_available_for_period rooms r.roomNumber r.dates.1 r.dates.2 reservations = false →
      add_reservation reservations rooms r = none) ∧
    (is_room_available_for_period rooms r.roomNumber r.dates.1 r.dates.2 reservations = true →
      add_reservation reservations rooms r =
        some (reservations ++ [r],
          rooms.map (fun room =>
            if room.roomNumber = r.roomNumber then { room with available := false } else room))) := by
  refine ⟨fun h => ?_, fun _ h => ?_, fun h => ?_⟩
  · rw [add_reservation_eq]
    simp [is_room_available_for_period, h]
  · rw [add_reservation_eq]
    simp [h]
  · rw [add_reservation_eq, if_pos h, update_room_availability_eq_map]

/-- Claim C3: from a state in which the room exists and no reservation in
the ledger blocks the requested ranges, booking two disjoint ranges on the
same room succeeds twice, while booking two overlapping ranges succeeds
once and the second booking is refused (`None`). -/
theorem claim_C3 (rooms : List Room) (resvs : List Reservation) (room : Room) (n : Int)
    (res1 res2 : Reservation)
    (hfound : check_room_status rooms n = some room)
    (h1 : res1.roomNumber = n) (h2 : res2.roomNumber = n)
    (hfree1 : check_reservations res1.dates.1 res1.dates.2 resvs = true) :
    (overlaps res1.dates res2.dates = false →
      check_reservations res2.dates.1 res2.dates.2 resvs = true →
      ∃ s1 s2, add_reservation resvs rooms res1 = some s1 ∧
        add_reservation s1.1 s1.2 res2 = some s2) ∧
    (overlaps res1.dates res2.dates = true →
      ∃ s1, add_reservation resvs rooms res1 = some s1 ∧
        add_reservation s1.1 s1.2 res2 = none) := by
  have havail1 : is_room_available_for_period rooms res1.roomNumber
      res1.dates.1 res1.dates.2 resvs = true := by
    rw [h1]
    simp only [is_room_available_for_period, hfound]
    exact hfree1
  have hadd1 : add_reservation resvs rooms res1 =
      some (resvs ++ [res1], update_room_availability rooms res1.roomNumber false) := by
    rw [add_reservation_eq, if_pos havail1]
  have hfound2 : check_room_status (update_room_availability rooms res1.roomNumber false)
      res2.roomNumber = some { room with available := false } := by
    rw [h2, h1, check_room_status_update, hfound]
    rfl
  have hsplit : check_reservations res2.dates.1 res2.dates.2 (resvs ++ [res1]) =
      (check_reservations res2.dates.1 res2.dates.2 resvs && !(overlaps res1.dates res2.dates)) := by
    rw [check_reservations_append, check_reservations_singleton]
    have heta : overlaps (res2.dates.1, res2.dates.2) res1.dates = overlaps res1.dates res2.dates := by
      rw [overlaps_comm]
    rw [heta]
  constructor
  · intro hdisj hfree2
    have havail2 : is_room_available_for_period
        (update_room_availability rooms res1.roomNumber false) res2.roomNumber
        res2.dates.1 res2.dates.2 (resvs ++ [res1]) = true := by
      simp only [is_room_available_for_period, hfound2]
      rw [hsplit, hfree2, hdisj]
      rfl
    exact ⟨_, _, hadd1, by rw [add_reservation_eq, if_pos havail2]⟩
  · intro hov
    have havail2 : is_room_available_for_period
        (update_room_availability rooms res1.roomNumber false) res2.roomNumber
        res2.dates.1 res2.dates.2 (resvs ++ [res1]) = false := by
      simp only [is_room_available_for_period, hfound2]
      rw [hsplit, hov]
      simp
    exact ⟨_, hadd1, by rw [add_reservation_eq]; simp [havail2]⟩

/-- Claim C4 — counterexample: room 1 is booked for 2024-01-01..2024-01-03;
`release_room` flips its flag back to available, yet booking the same room
for the same range afterwards is refused, because the reservation created
by the first booking is retained and overlaps the range. -/
theorem claim_C4_counterexample :
    add_reservation [] [⟨1, "single", 100, true⟩] ⟨"Alice", 1, ("2024-01-01", "2024-01-03")⟩ =
      some ([⟨"Alice", 1, ("2024-01-01", "2024-01-03")⟩], [⟨1, "single", 100, false⟩]) ∧
    release_room [⟨1, "single", 100, false⟩] 1 = [⟨1, "single", 100, true⟩] ∧
    add_reservation [⟨"Alice", 1, ("2024-01-01", "2024-01-03")⟩]
      (release_room [⟨1, "single", 100, false⟩] 1)
      ⟨"Alice", 1, ("2024-01-01", "2024-01-03")⟩ = none := by
  decide

/-- Claim C4 (amended): after any successful booking of a valid range
(start not after end), `release_room` leaves the room present with
`available = true`, but booking the same room for the same range again is
refused (`None`): `release_room` only flips the flag and does not remove
the reservation, which still overlaps the range. -/
theorem claim_C4 (resvs : List Reservation) (rooms : List Room) (r : Reservation)
    (resvs' : List Reservation) (rooms' : List Room)
    (hadd : add_reservation resvs rooms r = some (resvs', rooms'))
    (hrange : strLt r.dates.2 r.dates.1 = false) :
    (∃ room, check_room_status (release_room rooms' r.roomNumber) r.roomNumber = some room ∧
      room.available = true) ∧
    add_reservation resvs' (release_room rooms' r.roomNumber) r = none := by
  rw [add_reservation_eq] at hadd
  by_cases hA : is_room_available_for_period rooms r.roomNumber r.dates.1 r.dates.2 resvs = true
  case neg => simp [hA] at hadd
  rw [if_pos hA] at hadd
  simp only [Option.some.injEq, Prod.mk.injEq] at hadd
  obtain ⟨hres, hrm⟩ := hadd
  obtain ⟨room0, hfound⟩ : ∃ room0, check_room_status rooms r.roomNumber = some room0 := by
    cases hst : check_room_status rooms r.roomNumber with
    | none =>
      simp only [is_room_available_for_period, hst] at hA
      exact Bool.noConfusion hA
    | some room0 => exact ⟨room0, rfl⟩
  subst hres hrm
  have hrel : check_room_status
      (release_room (update_room_availability rooms r.roomNumber false) r.roomNumber) r.roomNumber =
      some { { room0 with available := false } with available := true } := by
    rw [release_room, check_room_status_update, check_room_status_update, hfound]
    rfl
  refine ⟨⟨_, hrel, rfl⟩, ?_⟩
  have hself : overlaps (r.dates.1, r.dates.2) r.dates = true := by
    rw [overlaps]
    simp only [hrange]
    rfl
  have havail : is_room_available_for_period
      (release_room (update_room_availability rooms r.roomNumber false) r.roomNumber)
      r.roomNumber r.dates.1 r.dates.2 (resvs ++ [r]) = false := by
    simp only [is_room_available_for_period, hrel]
    rw [check_reservations_append, check_reservations_singleton, hself]
    simp
  rw [add_reservation_eq]
  simp [havail]

/-- Claim C5: the overlap predicate is the inclusive-bounds test — true iff
not (a.end < b.start or a.start > b.end) under lexicographic comparison of
the date strings — and it is exactly the test applied by the availability
scan `check_reservations` and by `filter_reservations_by_period`. -/
theorem claim_C5 (a b : String × String) (s e : String) (l : List Reservation) :
    (overlaps a b = true ↔ ¬ (a.2 < b.1 ∨ a.1 > b.2)) ∧
    (check_reservations s e l = true ↔ ∀ r ∈ l, overlaps (s, e) r.dates = false) ∧
    filter_reservations_by_period l s e = l.filter (fun r => overlaps r.dates (s, e)) := by
  refine ⟨?_, check_reservations_eq_true_iff s e l, ?_⟩
  · rw [overlaps_eq_true_iff, gt_iff_lt]
  · induction l with
    | nil => rfl
    | cons r rest ih =>
      have hc : (!(strLt r.dates.2 s || strLt e r.dates.1)) = overlaps r.dates (s, e) := rfl
      rw [filter_reservations_by_period, hc, List.filter_cons, ih]

/-- Claim C6 — counterexample: with nights 3, extras 20, tax rate 1/10 and
discount 1/2 the program bills 192, charging the discount as a fraction of
the pre-tax subtotal, while the claimed formula — which subtracts the
discount as an absolute amount — gives 351.5. -/
theorem claim_C6_counterexample :
    generate_bill [⟨"Alice", 1, ("2024-01-01", "2024-01-04")⟩] [⟨1, "single", 100, true⟩]
        1 3 20 (1/10) (1/2) = some 192 ∧
    ¬ ((192 : ℚ) = (100 * 3 + 20) * (1 + 1/10) - 1/2) := by
  constructor
  · norm_num [generate_bill, check_room_status]
  · norm_num

/-- Claim C6 (amended): for nights >= 0 and extras >= 0, if some
reservation for the room number exists and the room is in the catalog,
`generate_bill` returns
`(price * nights + extras) * (1 + taxRate) - (price * nights + extras) * discount`
— the discount is applied as a fraction of the pre-tax subtotal — and it
returns `None` when no reservation for the room number exists. -/
theorem claim_C6 (reservations : List Reservation) (rooms : List Room) (n : Int)
    (days additional_services tax_rate discount : ℚ)
    (_hdays : 0 ≤ days) (_hextras : 0 ≤ additional_services) :
    (∀ room, check_room_status rooms n = some room →
      (∃ r ∈ reservations, r.roomNumber = n) →
      generate_bill reservations rooms n days additional_services tax_rate discount =
        some (((room.price : ℚ) * days + additional_services) * (1 + tax_rate)
          - ((room.price : ℚ) * days + additional_services) * discount)) ∧
    ((∀ r ∈ reservations, ¬ r.roomNumber = n) →
      generate_bill reservations rooms n days additional_services tax_rate discount = none) :=
  generate_bill_spec rooms n days additional_services tax_rate discount reservations

/-- Claim C7: whenever every stored date parses as `%Y-%m-%d`,
`generate_revenue_report` returns the sum, over exactly the reservations
that overlap the period and whose room is in the catalog, of
`rate * ((end - start in days) + 1)`; on a single reservation
2024-01-01..2024-01-03 at rate 100 it returns 300. -/
theorem claim_C7 :
    (∀ (rooms : List Room) (resvs : List Reservation) (s e : String),
      (∀ r ∈ resvs, (date_to_ordinal? r.dates.1).isSome ∧ (date_to_ordinal? r.dates.2).isSome) →
      generate_revenue_report rooms resvs s e = some (revenue_spec rooms resvs s e)) ∧
    generate_revenue_report [⟨101, "single", 100, true⟩]
      [⟨"Alice", 101, ("2024-01-01", "2024-01-03")⟩] "2024-01-01" "2024-01-03" = some 300 := by
  constructor
  · intro rooms resvs s e h
    have hloop := revenue_loop_eq rooms s e resvs 0 h
    simpa [generate_revenue_report] using hloop
  · decide

/-- Claim C8: `update_room_availability` replaces only the `available`
field of every room whose number matches, passes all other rooms (and all
other fields) through unchanged, and returns the input unchanged when no
room matches. -/
theorem claim_C8 (rooms : List Room) (n : Int) (b : Bool) :
    update_room_availability rooms n b =
      rooms.map (fun room =>
        if room.roomNumber = n then { room with available := b } else room) ∧
    ((∀ room ∈ rooms, ¬ room.roomNumber = n) → update_room_availability rooms n b = rooms) := by
  refine ⟨update_room_availability_eq_map rooms n b, fun h => ?_⟩
  rw [update_room_availability_eq_map]
  conv_rhs => rw [← List.map_id rooms]
  exact List.map_congr_left fun room hm => by simp [h room hm]

/-- Claim C9: the result of `is_room_available_for_period` does not depend
on the rooms' `available` flags — two catalogs that agree except on those
flags give the same answer for every query — and a room that is present
but flagged unavailable is still reported available for a period that no
reservation overlaps. -/
theorem claim_C9 :
    (∀ (rooms1 rooms2 : List Room) (n : Int) (s e : String) (resvs : List Reservation),
      List.Forall₂ same_except_available rooms1 rooms2 →
      is_room_available_for_period rooms1 n s e resvs =
        is_room_available_for_period rooms2 n s e resvs) ∧
    (∀ (rooms : List Room) (n : Int) (s e : String) (resvs : List Reservation) (room : Room),
      check_room_status rooms n = some room → room.available = false →
      (∀ r ∈ resvs, overlaps (s, e) r.dates = false) →
      is_room_available_for_period rooms n s e resvs = true) := by
  constructor
  · intro rooms1 rooms2 n s e resvs h
    have hsome := check_room_status_congr h n
    cases h1 : check_room_status rooms1 n with
    | none =>
      cases h2 : check_room_status rooms2 n with
      | none => simp [is_room_available_for_period, h1, h2]
      | some room2 => rw [h1, h2] at hsome; simp at hsome
    | some room1 =>
      cases h2 : check_room_status rooms2 n with
      | none => rw [h1, h2] at hsome; simp at hsome
      | some room2 => simp [is_room_available_for_period, h1, h2]
  · intro rooms n s e resvs room hfound _ hno
    simp only [is_room_available_for_period, hfound]
    exact (check_reservations_eq_true_iff s e resvs).mpr hno

/-- Claim C10: in the `Concepts_Builtin` and `Concepts_JsonFile` variants
(whose `add_reservation` coincide), a booking is refused exactly when the
room is absent from the catalog or its `available` flag is false; neither
the reservation's dates nor the existing reservations are consulted; and
after any successful booking, every further booking of that room — with
any dates — is refused until `release_room` is applied, after which a
booking of that room succeeds again. -/
theorem claim_C10 :
    (∀ (resvs : List Reservation) (rooms : List Room) (r : Reservation),
      Concepts_JsonFile.add_reservation resvs rooms r =
        Concepts_Builtin.add_reservation resvs rooms r) ∧
    (∀ (resvs : List Reservation) (rooms : List Room) (r : Reservation),
      Concepts_Builtin.add_reservation resvs rooms r = none ↔
        ¬ ∃ room, check_room_status rooms r.roomNumber = some room ∧ room.available = true) ∧
    (∀ (resvs1 resvs2 : List Reservation) (rooms : List Room) (r1 r2 : Reservation),
      r1.roomNumber = r2.roomNumber →
      (Concepts_Builtin.add_reservation resvs1 rooms r1).map Prod.snd =
        (Concepts_Builtin.add_reservation resvs2 rooms r2).map Prod.snd) ∧
    (∀ (resvs : List Reservation) (rooms : List Room) (r : Reservation)
      (resvs' : List Reservation) (rooms' : List Room),
      Concepts_Builtin.add_reservation resvs rooms r = some (resvs', rooms') →
      (∀ (resvs2 : List Reservation) (r2 : Reservation), r2.roomNumber = r.roomNumber →
        Concepts_Builtin.add_reservation resvs2 rooms' r2 = none) ∧
      (∀ (resvs2 : List Reservation) (r2 : Reservation), r2.roomNumber = r.roomNumber →
        (Concepts_Builtin.add_reservation resvs2 (release_room rooms' r.roomNumber) r2).isSome
          = true)) := by
  refine ⟨fun _ _ _ => rfl, ?_, ?_, ?_⟩
  · intro resvs rooms r
    cases h : check_room_status rooms r.roomNumber with
    | none => simp [Concepts_Builtin.add_reservation, h]
    | some room =>
      cases hav : room.available <;> simp [Concepts_Builtin.add_reservation, h, hav]
  · intro resvs1 resvs2 rooms r1 r2 h12
    rw [Concepts_Builtin.add_reservation, Concepts_Builtin.add_reservation, h12]
    cases h : check_room_status rooms r2.roomNumber with
    | none => rfl
    | some room => cases hav : room.available <;> simp [hav]
  · intro resvs rooms r resvs' rooms' hsucc
    rw [Concepts_Builtin.add_reservation] at hsucc
    cases h : check_room_status rooms r.roomNumber with
    | none => rw [h] at hsucc; exact absurd hsucc (by simp)
    | some room =>
      rw [h] at hsucc
      cases hav : room.available with
      | false => simp [hav] at hsucc
      | true =>
        simp only [hav, if_true, Option.some.injEq, Prod.mk.injEq] at hsucc
        obtain ⟨hres, hrooms⟩ := hsucc
        subst hrooms
        constructor
        · intro resvs2 r2 h2
          have hf2 : check_room_status (update_room_availability rooms r.roomNumber false)
              r2.roomNumber = some { room with available := false } := by
            rw [h2, check_room_status_update, h]
            rfl
          rw [Concepts_Builtin.add_reservation, hf2]
          rfl
        · intro resvs2 r2 h2
          have hf2 : check_room_status
              (release_room (update_room_availability rooms r.roomNumber false) r.roomNumber)
              r2.roomNumber = some { { room with available := false } with available := true } := by
            rw [h2, release_room, check_room_status_update, check_room_status_update, h]
            rfl
          rw [Concepts_Builtin.add_reservation, hf2]
          rfl

end Hotel

namespace Hotel

/-- Concrete instance of claim C2's third branch: booking room 1 in a
one-room catalog with an empty ledger succeeds and flips the flag. -/
theorem claim_C2_witness :
    add_reservation [] [⟨1, "single", 100, true⟩] ⟨"Alice", 1, ("2024-01-01", "2024-01-03")⟩ =
      some ([⟨"Alice", 1, ("2024-01-01", "2024-01-03")⟩],
        List.map (fun room =>
          if room.roomNumber = (1 : Int) then { room with available := false } else room)
          [⟨1, "single", 100, true⟩]) :=
  (claim_C2 [] [⟨1, "single", 100, true⟩] ⟨"Alice", 1, ("2024-01-01", "2024-01-03")⟩).2.2
    (by decide)

/-- Concrete instance of claim C3: on room 1, 2024-01-01..2024-01-03 then
the disjoint 2024-01-04..2024-01-06 both book; 2024-01-01..2024-01-03 then
the overlapping 2024-01-02..2024-01-04 books once and is then refused. -/
theorem claim_C3_witness :
    (∃ s1 s2, add_reservation [] [⟨1, "single", 100, true⟩]
        ⟨"Alice", 1, ("2024-01-01", "2024-01-03")⟩ = some s1 ∧
      add_reservation s1.1 s1.2 ⟨"Bob", 1, ("2024-01-04", "2024-01-06")⟩ = some s2) ∧
    (∃ s1, add_reservation [] [⟨1, "single", 100, true⟩]
        ⟨"Alice", 1, ("2024-01-01", "2024-01-03")⟩ = some s1 ∧
      add_reservation s1.1 s1.2 ⟨"Carol", 1, ("2024-01-02", "2024-01-04")⟩ = none) :=
  ⟨(claim_C3 [⟨1, "single", 100, true⟩] [] ⟨1, "single", 100, true⟩ 1
      ⟨"Alice", 1, ("2024-01-01", "2024-01-03")⟩ ⟨"Bob", 1, ("2024-01-04", "2024-01-06")⟩
      (by decide) (by decide) (by decide) (by decide)).1 (by decide) (by decide),
   (claim_C3 [⟨1, "single", 100, true⟩] [] ⟨1, "single", 100, true⟩ 1
      ⟨"Alice", 1, ("2024-01-01", "2024-01-03")⟩ ⟨"Carol", 1, ("2024-01-02", "2024-01-04")⟩
      (by decide) (by decide) (by decide) (by decide)).2 (by decide)⟩

/-- Concrete instance of claim C4 (amended): after booking room 1 for
2024-01-01..2024-01-03 and releasing it, the room is flagged available but
rebooking the same range is refused. -/
theorem claim_C4_witness :
    (∃ room, check_room_status
        (release_room [⟨1, "single", 100, false⟩] 1) 1 = some room ∧
      room.available = true) ∧
    add_reservation [⟨"Alice", 1, ("2024-01-01", "2024-01-03")⟩]
      (release_room [⟨1, "single", 100, false⟩] 1)
      ⟨"Alice", 1, ("2024-01-01", "2024-01-03")⟩ = none :=
  claim_C4 [] [⟨1, "single", 100, true⟩] ⟨"Alice", 1, ("2024-01-01", "2024-01-03")⟩
    [⟨"Alice", 1, ("2024-01-01", "2024-01-03")⟩] [⟨1, "single", 100, false⟩]
    (by decide) (by decide)

/-- Concrete instance of claim C6 (amended): 3 nights at rate 100 with 20
extras, 1/10 tax and 1/2 discount bill as the subtotal-fraction formula. -/
theorem claim_C6_witness :
    generate_bill [⟨"Alice", 1, ("2024-01-01", "2024-01-04")⟩] [⟨1, "single", 100, true⟩]
        1 3 20 (1/10) (1/2) =
      some ((((100 : Int) : ℚ) * 3 + 20) * (1 + 1/10) - (((100 : Int) : ℚ) * 3 + 20) * (1/2)) :=
  (claim_C6 [⟨"Alice", 1, ("2024-01-01", "2024-01-04")⟩] [⟨1, "single", 100, true⟩] 1
      3 20 (1/10) (1/2) (by norm_num) (by norm_num)).1
    ⟨1, "single", 100, true⟩ (by decide) (by decide)

/-- Concrete instance of claim C7's general sum: the report over a
one-reservation ledger equals the specified sum. -/
theorem claim_C7_witness :
    generate_revenue_report [⟨101, "single", 100, true⟩]
        [⟨"Alice", 101, ("2024-01-01", "2024-01-03")⟩] "2024-01-01" "2024-01-31" =
      some (revenue_spec [⟨101, "single", 100, true⟩]
        [⟨"Alice", 101, ("2024-01-01", "2024-01-03")⟩] "2024-01-01" "2024-01-31") :=
  claim_C7.1 [⟨101, "single", 100, true⟩] [⟨"Alice", 101, ("2024-01-01", "2024-01-03")⟩]
    "2024-01-01" "2024-01-31" (by decide)

/-- Concrete instance of claim C8's no-match branch: updating room 2 in a
catalog that only has room 1 returns the catalog unchanged. -/
theorem claim_C8_witness :
    update_room_availability [⟨1, "single", 100, true⟩] 2 false = [⟨1, "single", 100, true⟩] :=
  (claim_C8 [⟨1, "single", 100, true⟩] 2 false).2 (by decide)

/-- Concrete instance of claim C9: flipping the only room's flag does not
change the availability answer, and the unavailable-flagged room is
reported available for a period with no reservations. -/
theorem claim_C9_witness :
    is_room_available_for_period [⟨1, "single", 100, true⟩] 1 "2024-01-01" "2024-01-03" [] =
      is_room_available_for_period [⟨1, "single", 100, false⟩] 1 "2024-01-01" "2024-01-03" [] ∧
    is_room_available_for_period [⟨1, "single", 100, false⟩] 1 "2024-01-01" "2024-01-03" [] = true :=
  ⟨claim_C9.1 [⟨1, "single", 100, true⟩] [⟨1, "single", 100, false⟩] 1
      "2024-01-01" "2024-01-03" []
      (List.Forall₂.cons ⟨rfl, rfl, rfl⟩ List.Forall₂.nil),
   claim_C9.2 [⟨1, "single", 100, false⟩] 1 "2024-01-01" "2024-01-03" []
      ⟨1, "single", 100, false⟩ (by decide) (by decide) (by decide)⟩

/-- Concrete instance of claim C10's after-success branches: once room 1 is
booked in the Builtin variant, a second booking with unrelated disjoint
dates is refused, and after `release_room` a booking succeeds again. -/
theorem claim_C10_witness :
    Concepts_Builtin.add_reservation [] [⟨1, "single", 100, false⟩]
      ⟨"Bob", 1, ("2024-02-01", "2024-02-03")⟩ = none ∧
    (Concepts_Builtin.add_reservation []
      (release_room [⟨1, "single", 100, false⟩] 1)
      ⟨"Bob", 1, ("2024-02-01", "2024-02-03")⟩).isSome = true :=
  ⟨(claim_C10.2.2.2 [] [⟨1, "single", 100, true⟩] ⟨"Alice", 1, ("2024-01-01", "2024-01-03")⟩
      [⟨"Alice", 1, ("2024-01-01", "2024-01-03")⟩] [⟨1, "single", 100, false⟩] (by decide)).1
      [] ⟨"Bob", 1, ("2024-02-01", "2024-02-03")⟩ (by decide),
   (claim_C10.2.2.2 [] [⟨1, "single", 100, true⟩] ⟨"Alice", 1, ("2024-01-01", "2024-01-03")⟩
      [⟨"Alice", 1, ("2024-01-01", "2024-01-03")⟩] [⟨1, "single", 100, false⟩] (by decide)).2
      [] ⟨"Bob", 1, ("2024-02-01", "2024-02-03")⟩ (by decide)⟩

end Hotel
